import Mathlib

/-!
# StudyQuestBackend — verification of the boss-battle / text-AI / dashboard routers

Shallow embedding of `app/routers/bossbattle.py`, `app/routers/text_ai.py`
and `app/routers/home.py`.

Modelling conventions:
* Time: `datetime.utcnow()` is passed in explicitly as `now : Int`
  (seconds); `Progress.date` and record dates are likewise integer seconds.
* The in-memory `_ACTIVE_SESSIONS` dict is an association list with unique
  keys; assignment `d[k] = v` is cons-after-remove, `d.pop(k, None)` removes
  the key.
* The database is a record of lists; `select(...).first()` is `find?` on the
  list, `session.add` appends, committing an attribute mutation rewrites the
  matching list entry.
* Calls to the third-party chat-completion API are nondeterministic inputs:
  an outcome parameter says whether the client is unconfigured, the call (or
  its JSON parsing) raised, or it returned parsed JSON, in which case the
  parsed payload fields are given abstractly and the code's own
  validation/cleaning logic is embedded faithfully.
* A Python `HTTPException` raised before any mutation returns an error
  response with the state unchanged; an uncaught `IndexError` (possible when
  an AI-generated question list is shorter than `total_questions`) is the
  `indexError` response, carrying whatever state had been mutated before the
  raise — Python dict mutations persist across an exception.
-/

set_option linter.unusedVariables false

namespace StudyQuest

/-- A quiz question as stored in a session (`_QUESTIONS` entries / cleaned
AI output): text, choice list, index of the correct choice. -/
structure Question where
  question : String
  choices : List String
  answer_idx : Int
  deriving Repr, DecidableEq

/-- The static question bank `_QUESTIONS` of `bossbattle.py` (texts and
choices abridged to their identifying content; `answer_idx` exact). -/
def QUESTIONS : List Question :=
  [ { question := "What is the time complexity of binary search?",
      choices := ["O(n)", "O(log n)", "O(n log n)", "O(1)"], answer_idx := 1 },
    { question := "Which HTTP method is idempotent?",
      choices := ["POST", "PUT", "PATCH", "CONNECT"], answer_idx := 1 },
    { question := "What does SQL stand for?",
      choices := ["Simple Query Language", "Structured Query Language",
                  "Sequential Query Language", "System Query Language"], answer_idx := 1 },
    { question := "Which data structure uses FIFO order?",
      choices := ["Stack", "Queue", "Tree", "Heap"], answer_idx := 1 },
    { question := "Which status code means 'Not Found'?",
      choices := ["200", "301", "404", "500"], answer_idx := 2 } ]

/-- One in-memory boss-battle session: the value stored in
`_ACTIVE_SESSIONS[user]`. -/
structure Sess where
  difficulty : String
  started_at : Int
  time_limit_seconds : Int
  lives : Int
  score : Nat
  index : Nat
  total_questions : Nat
  questions : List Question
  deriving Repr, DecidableEq

/-- A `User` row. `app/models.py` is not part of the sources; modelled from
the spec's data model: "User (username, email, total_xp)".  `total_xp` is a
plain integer (the Python `user_obj.total_xp or 0` is the identity on
integers, since `0 or 0 == 0`). -/
structure UserRec where
  username : String
  total_xp : Int
  deriving Repr, DecidableEq

/-- A persisted `BossBattle` row, as constructed in `_end_session`. -/
structure BossBattleRec where
  user : String
  date : Int
  score : Nat
  total_questions : Nat
  xp_reward : Int
  difficulty : String
  completed : Bool
  deriving Repr, DecidableEq

/-- A persisted `TextAIReflection` row, as constructed in `add_reflection`. -/
structure ReflectionRec where
  user : String
  date : Int
  reflection_text : String
  ai_feedback : String
  summary : String
  xp_reward : Int
  deriving Repr, DecidableEq

/-- A `Progress` row (study session), the fields `home.py` reads. -/
structure ProgressRec where
  user : String
  date : Int
  duration_minutes : Int
  reflection : String
  xp_gained : Int
  deriving Repr, DecidableEq

/-- The relational store: the tables the embedded routers touch. -/
structure DB where
  users : List UserRec
  bossBattles : List BossBattleRec
  reflections : List ReflectionRec
  progresses : List ProgressRec
  deriving Repr, DecidableEq

/-- Full server state: database plus the in-memory `_ACTIVE_SESSIONS` map. -/
structure St where
  db : DB
  sessions : List (String × Sess)
  deriving Repr, DecidableEq

/-- Model of `_ACTIVE_SESSIONS.get(user)`: first (unique-key) association lookup. -/
def lookupS : List (String × Sess) → String → Option Sess
  | [], _ => none
  | (k, v) :: rest, u => if k = u then some v else lookupS rest u

/-- Model of `_ACTIVE_SESSIONS.pop(user, None)`: remove the key. -/
def popS : List (String × Sess) → String → List (String × Sess)
  | [], _ => []
  | (k, v) :: rest, u => if k = u then popS rest u else (k, v) :: popS rest u

/-- Model of `_ACTIVE_SESSIONS[user] = sess`: overwrite-or-insert. -/
def putS (m : List (String × Sess)) (u : String) (s : Sess) : List (String × Sess) :=
  (u, s) :: popS m u

/-- Model of `session.exec(select(User).where(User.username == u)).first()`. -/
def findUser : List UserRec → String → Option UserRec
  | [], _ => none
  | r :: rs, u => if r.username = u then some r else findUser rs u

/-- Committing `user_obj.total_xp = (user_obj.total_xp or 0) + xp` on the
row returned by `.first()`: add `xp` to the first row matching `u`; no-op
when no row matches (the code guards with `if user_obj`). -/
def creditXp : List UserRec → String → Int → List UserRec
  | [], _, _ => []
  | r :: rs, u, xp =>
      if r.username = u then { r with total_xp := r.total_xp + xp } :: rs
      else r :: creditXp rs u xp

/-- Python `x or default` for an optional string (`None` and `""` falsy). -/
def pyOrStr (x : Option String) (dflt : String) : String :=
  match x with
  | none => dflt
  | some s => if s = "" then dflt else s

/-- Python `x or default` for an optional int (`None` and `0` falsy). -/
def pyOrInt (x : Option Int) (dflt : Int) : Int :=
  match x with
  | none => dflt
  | some v => if v = 0 then dflt else v

/-- Model of `_time_remaining`: `max(0, int(time_limit - elapsed))` with
`elapsed = now - started_at` in whole seconds. -/
def time_remaining (sess : Sess) (now : Int) : Int :=
  max 0 (sess.time_limit_seconds - (now - sess.started_at))

/-- Responses of the `/boss` handlers (the JSON payload fields the spec's
claims talk about; informational strings of the bodies are kept where they
distinguish behaviours). -/
inductive Resp where
  | ended (status : String) (score : Nat) (xp_reward : Int)
      (total_questions : Nat) (lives_remaining : Int)
  | sessionClosed
  | started (user : String) (timer_seconds : Int) (lives : Int)
      (number : Nat) (total : Nat) (question : String) (choices : List String)
  | question (question : String) (choices : List String) (number : Nat)
      (total : Nat) (lives : Int) (timer_remaining : Int) (score : Nat)
  | answered (correct : Bool) (feedback : String) (lives : Int) (score : Nat)
      (timer_remaining : Int) (number : Nat) (total : Nat)
      (question : String) (choices : List String)
  | statusInfo (lives : Int) (score : Nat) (question_number : Nat)
      (total_questions : Nat) (timer_remaining : Int) (completed : Bool)
  | httpError (code : Nat) (detail : String)
  | indexError
  deriving Repr, DecidableEq

/-- The status code of a `Resp`, when it is an `HTTPException`. -/
def Resp.errCode : Resp → Option Nat
  | .httpError c _ => some c
  | _ => none

/-- The `status` field of a `Resp`, when it is a terminal session report. -/
def Resp.endStatus : Resp → Option String
  | .ended s _ _ _ _ => some s
  | _ => none

/-- Model of `_end_session(user, status)`: write the `BossBattle` record, credit
XP to the user row when it exists, drop the in-memory session. -/
def end_session (st : St) (user : String) (status : String) (now : Int) : Resp × St :=
  match lookupS st.sessions user with
  | none => (Resp.sessionClosed, st)
  | some sess =>
      let xp_reward : Int := (sess.score : Int) * 20
      let record : BossBattleRec :=
        { user := user, date := now, score := sess.score,
          total_questions := sess.total_questions, xp_reward := xp_reward,
          difficulty := sess.difficulty, completed := true }
      let db' : DB :=
        { st.db with
          users := creditXp st.db.users user xp_reward,
          bossBattles := st.db.bossBattles ++ [record] }
      (Resp.ended status sess.score xp_reward sess.total_questions sess.lives,
       { db := db', sessions := popS st.sessions user })

/-- One raw item of the parsed `questions` array, before cleaning:
`isDict` is the `isinstance(q, dict)` test; `question`/`choices` are the
`.get` results with Python-falsy `None` as `none` (an empty question string
is kept and handled by the truthiness test in the cleaning loop);
`answer_idx` is `none` when `int(answer_idx)` would raise. -/
structure RawQ where
  isDict : Bool
  question : Option String
  choices : Option (List String)
  answer_idx : Option Int

/-- Outcome of the optional OpenAI call in `_generate_ai_questions`:
the client may be unconfigured (`ai_client is None`), the call or its JSON
parsing may raise, or it returns a parsed `questions` array whose raw items
are then cleaned by the code. -/
inductive AIQuestions where
  | unavailable
  | failure
  | success (raw : List RawQ)

/-- Whether a raw item passes
`question and isinstance(choices, list) and len(choices) >= 2`. -/
def RawQ.valid (r : RawQ) : Bool :=
  r.isDict &&
    (match r.question with | none => false | some s => s ≠ "") &&
    (match r.choices with | none => false | some cs => cs.length ≥ 2)

/-- The cleaned question built from a valid raw item: `choices[:4]`,
`answer_idx` defaulting to 0 when `int()` failed. -/
def RawQ.clean (r : RawQ) : Question :=
  { question := (r.question).getD "",
    choices := ((r.choices).getD []).take 4,
    answer_idx := (r.answer_idx).getD 0 }

/-- The cleaning loop of `_generate_ai_questions`: append each valid item,
stop once `len(cleaned) >= total` (the check runs after each iteration). -/
def cleanLoop (total : Nat) : List RawQ → List Question → List Question
  | [], acc => acc
  | r :: rs, acc =>
      let acc' := if r.valid then acc ++ [r.clean] else acc
      if acc'.length ≥ total then acc' else cleanLoop total rs acc'

/-- Model of `_generate_ai_questions(total)`: static bank prefix when the client is
unconfigured or the call raises; otherwise the cleaned AI questions
truncated to `total`, falling back to the static prefix when cleaning
produced nothing. -/
def generate_ai_questions (ai : AIQuestions) (total : Nat) : List Question :=
  match ai with
  | .unavailable => QUESTIONS.take total
  | .failure => QUESTIONS.take total
  | .success raw =>
      let cleaned := cleanLoop total raw []
      if cleaned.isEmpty then QUESTIONS.take total else cleaned.take total

/-- The `StartRequest` payload after pydantic validation: `difficulty` and
`time_limit_seconds` may be `None` (explicit `null`; absent fields already
got their defaults `"medium"` / `180` / `5`), `total_questions` is the
resolved integer. -/
structure StartRequest where
  user : String
  difficulty : Option String
  total_questions : Int
  time_limit_seconds : Option Int

/-- Handler `POST /boss/start` (`start_boss_battle`). Checks, in order: the user
exists (404), `total_questions >= 1` (400), no active session (409); then
builds the session and returns the first question. -/
def start_boss_battle (st : St) (p : StartRequest) (now : Int) (ai : AIQuestions) :
    Resp × St :=
  if (findUser st.db.users p.user).isNone then
    (Resp.httpError 404 "User not found. Please register first.", st)
  else if p.total_questions < 1 then
    (Resp.httpError 400 "total_questions must be >= 1", st)
  else if (lookupS st.sessions p.user).isSome then
    (Resp.httpError 409 "An active boss battle already exists.", st)
  else
    let total : Nat := min p.total_questions.toNat QUESTIONS.length
    let questions := generate_ai_questions ai total
    let sess : Sess :=
      { difficulty := pyOrStr p.difficulty "medium",
        started_at := now,
        time_limit_seconds := pyOrInt p.time_limit_seconds 180,
        lives := 3, score := 0, index := 0,
        total_questions := total, questions := questions }
    let st' : St := { st with sessions := putS st.sessions p.user sess }
    match questions[0]? with
    | none => (Resp.indexError, st')
    | some q =>
        (Resp.started p.user (pyOrInt p.time_limit_seconds 180) 3 1 total
          q.question q.choices, st')

/-- Handler `GET /boss/question` (`get_current_question`): timeout first, then
out-of-lives, then completion, then the current question. -/
def get_current_question (st : St) (user : String) (now : Int) : Resp × St :=
  match lookupS st.sessions user with
  | none => (Resp.httpError 404 "No active boss battle. Start one first.", st)
  | some sess =>
      if time_remaining sess now = 0 then end_session st user "timeout" now
      else if sess.lives ≤ 0 then end_session st user "out_of_lives" now
      else if sess.index ≥ sess.total_questions then end_session st user "completed" now
      else
        match sess.questions[sess.index]? with
        | none => (Resp.indexError, st)
        | some q =>
            (Resp.question q.question q.choices (sess.index + 1)
              sess.total_questions sess.lives (time_remaining sess now)
              sess.score, st)

/-- The session mutation of `submit_answer` on the current question `q`:
`score += 1` on a correct choice, else `lives -= 1`; `index += 1`. -/
def answerStep (sess : Sess) (choice : Int) (q : Question) : Sess :=
  let is_correct := choice = q.answer_idx
  { sess with
    score := if is_correct then sess.score + 1 else sess.score,
    lives := if is_correct then sess.lives else sess.lives - 1,
    index := sess.index + 1 }

/-- Handler `POST /boss/answer` (`submit_answer`). `userArg`/`choiceArg` are the
values resolved from body/form/query (`none` when absent or unparseable);
`if not username` also rejects the empty string. After the mutation the
handler may terminate the session (out of lives, or completed); otherwise
it reads the next question — whose absence is an uncaught `IndexError`
that still leaves the mutated session in the map. -/
def submit_answer (st : St) (userArg : Option String) (choiceArg : Option Int)
    (now : Int) : Resp × St :=
  match userArg with
  | none => (Resp.httpError 400 "user is required.", st)
  | some username =>
      if username = "" then (Resp.httpError 400 "user is required.", st)
      else
        match choiceArg with
        | none => (Resp.httpError 400 "choice_idx is required.", st)
        | some choice =>
            match lookupS st.sessions username with
            | none => (Resp.httpError 404 "No active boss battle. Start one first.", st)
            | some sess =>
                if time_remaining sess now = 0 then
                  end_session st username "timeout" now
                else if sess.index ≥ sess.total_questions then
                  end_session st username "completed" now
                else
                  match sess.questions[sess.index]? with
                  | none => (Resp.indexError, st)
                  | some q =>
                      let is_correct := choice = q.answer_idx
                      let feedback :=
                        if is_correct then "Correct! +20 XP" else "Wrong! -1 life"
                      let sess' := answerStep sess choice q
                      let st' : St :=
                        { st with sessions := putS st.sessions username sess' }
                      if sess'.lives ≤ 0 then
                        end_session st' username "out_of_lives" now
                      else if sess'.index ≥ sess'.total_questions then
                        end_session st' username "completed" now
                      else
                        match sess'.questions[sess'.index]? with
                        | none => (Resp.indexError, st')
                        | some nq =>
                            (Resp.answered is_correct feedback sess'.lives
                              sess'.score (time_remaining sess' now)
                              (sess'.index + 1) sess'.total_questions
                              nq.question nq.choices, st')

/-- Handler `GET /boss/status` (`get_status`): timeout first, else a status view of
the session; the session stays in the map. -/
def get_status (st : St) (user : String) (now : Int) : Resp × St :=
  match lookupS st.sessions user with
  | none => (Resp.httpError 404 "No active boss battle. Start one first.", st)
  | some sess =>
      let remaining := time_remaining sess now
      if remaining = 0 then end_session st user "timeout" now
      else
        (Resp.statusInfo sess.lives sess.score
          (min (sess.index + 1) sess.total_questions) sess.total_questions
          remaining false, st)

/-- Handler `POST /boss/forfeit` (`forfeit`): requires an active session, then ends
it with status `"forfeit"` — there is no timer check on this path. -/
def forfeit (st : St) (user : String) (now : Int) : Resp × St :=
  match lookupS st.sessions user with
  | none => (Resp.httpError 404 "No active boss battle. Start one first.", st)
  | some _ => end_session st user "forfeit" now

/-- Python `needle in haystack` on character lists. -/
def hasInfix (nee : List Char) : List Char → Bool
  | [] => nee.isEmpty
  | c :: cs => nee.isPrefixOf (c :: cs) || hasInfix nee cs

/-- Python `word in text` for strings. -/
def strContains (hay nee : String) : Bool :=
  hasInfix nee.data hay.data

/-- Python `any(word in text for word in words)`. -/
def containsAny (hay : String) (words : List String) : Bool :=
  words.any (strContains hay)

/-- The feedback triple produced for a reflection
(`{"feedback", "summary", "xp_reward"}`). -/
structure AIFb where
  feedback : String
  summary : String
  xp_reward : Int
  deriving Repr, DecidableEq

/-- Model of `reflection_text[:120] + "..." if len(reflection_text) > 120 else
reflection_text`. -/
def summarize (t : String) : String :=
  if t.length > 120 then t.take 120 ++ "..." else t

/-- Model of `_mock_ai_feedback`: keyword heuristic on the lower-cased text, summary
by truncation, fixed XP of 10. -/
def mock_ai_feedback (reflection_text : String) : AIFb :=
  let text := reflection_text.toLower
  let feedback :=
    if containsAny text ["tired", "hard", "struggle", "stuck"] then
      "It sounds like you faced challenges today — remember, progress is built through persistence."
    else if containsAny text ["happy", "productive", "focused", "good", "great"] then
      "Fantastic work! Keep maintaining that focused mindset."
    else
      "Keep reflecting — awareness is the key to consistent improvement."
  { feedback := feedback, summary := summarize reflection_text, xp_reward := 10 }

/-- Outcome of the OpenAI call in `generate_ai_feedback`: unconfigured
client, an exception anywhere in the call/parse, or parsed JSON whose
`feedback`/`summary` fields are the `.get` results (`none` for a missing
key; Python-falsy empty strings are handled by the `or` defaults) and whose
`xp_reward` is `none` when the key is missing or `int()` on it raises. -/
inductive AIFeedbackOutcome where
  | unavailable
  | failure
  | success (feedback : Option String) (summary : Option String) (xp : Option Int)

/-- Model of `generate_ai_feedback`: mock fallback when unconfigured or on any
exception; otherwise `or`-defaults for the strings and
`max(5, min(25, int(xp_reward)))` with 10 for a missing/non-integer value. -/
def generate_ai_feedback (outcome : AIFeedbackOutcome) (reflection_text : String) :
    AIFb :=
  match outcome with
  | .unavailable => mock_ai_feedback reflection_text
  | .failure => mock_ai_feedback reflection_text
  | .success fb sm xp =>
      { feedback := pyOrStr fb "Keep going – each reflection helps you improve.",
        summary := pyOrStr sm (summarize reflection_text),
        xp_reward := max 5 (min 25 (xp.getD 10)) }

/-- Responses of the `/text-ai` handlers. -/
inductive TAResp where
  | created (r : ReflectionRec)
  | listed (rs : List ReflectionRec)
  | httpError (code : Nat) (detail : String)
  deriving Repr, DecidableEq

/-- The status code of a `TAResp`, when it is an `HTTPException`. -/
def TAResp.errCode : TAResp → Option Nat
  | .httpError c _ => some c
  | _ => none

/-- The `xp_reward` stored by a successful `POST /text-ai/`. -/
def TAResp.createdXp : TAResp → Option Int
  | .created r => some r.xp_reward
  | _ => none

/-- Handler `POST /text-ai/` (`add_reflection`). `userArg`/`textArg` are the values
resolved from body/form/query (the `or`-chains make absent and empty
equivalent, and `if not x` also rejects `""`); `dateArg` is the resolved
date, defaulting to `utcnow`. Order of checks: user present (400), text
present (400), user registered (404); then the record is created with the
feedback triple and appended. -/
def add_reflection (st : St) (userArg textArg : Option String)
    (dateArg : Option Int) (now : Int) (outcome : AIFeedbackOutcome) :
    TAResp × St :=
  match userArg with
  | none => (TAResp.httpError 400 "user is required.", st)
  | some username =>
      if username = "" then (TAResp.httpError 400 "user is required.", st)
      else
        match textArg with
        | none => (TAResp.httpError 400 "reflection_text is required.", st)
        | some text =>
            if text = "" then (TAResp.httpError 400 "reflection_text is required.", st)
            else if (findUser st.db.users username).isNone then
              (TAResp.httpError 404 "User not found. Please register first.", st)
            else
              let ai := generate_ai_feedback outcome text
              let record : ReflectionRec :=
                { user := username, date := dateArg.getD now,
                  reflection_text := text, ai_feedback := ai.feedback,
                  summary := ai.summary, xp_reward := ai.xp_reward }
              (TAResp.created record,
               { st with db :=
                  { st.db with reflections := st.db.reflections ++ [record] } })

/-- Handler `GET /text-ai/` (`list_reflections`): 404 when the user is missing,
404 when the user has no reflections, else the user's reflections. -/
def list_reflections (st : St) (user : String) : TAResp × St :=
  if (findUser st.db.users user).isNone then
    (TAResp.httpError 404 "User not found. Please register first.", st)
  else
    let rs := st.db.reflections.filter (fun r => r.user = user)
    if rs.isEmpty then
      (TAResp.httpError 404 "No reflections found for this user.", st)
    else (TAResp.listed rs, st)

/-- A day bucket: `datetime.date()` of an integer-seconds timestamp. -/
def dayOf (t : Int) : Int := t / 86400

/-- Ascending insertion, for `sorted(...)`. -/
def insertAsc (x : Int) : List Int → List Int
  | [] => [x]
  | y :: ys => if x ≤ y then x :: y :: ys else y :: insertAsc x ys

/-- Model of `sorted(set)`: sort the deduplicated day list ascending. -/
def sortedDays (l : List Int) : List Int :=
  (l.eraseDups).foldr insertAsc []

/-- The streak loop of `calculate_streak`, walking the sorted day list from
its end: count while consecutive days differ by exactly 1. -/
def streakDesc : List Int → Nat
  | a :: b :: rest => if a - b = 1 then 1 + streakDesc (b :: rest) else 1
  | _ => 1

/-- Model of `calculate_streak`: 0 for no sessions, else the run of consecutive days
ending at the most recent study day. -/
def calculate_streak (sessions : List ProgressRec) : Nat :=
  if sessions.isEmpty then 0
  else streakDesc (sortedDays (sessions.map (fun s => dayOf s.date))).reverse

/-- Model of `get_motivation_message`. -/
def get_motivation_message (streak : Nat) : String :=
  if streak = 0 then
    "Every master was once a beginner — start your first quest today!"
  else if streak < 3 then "Nice start! Keep your streak alive 🔥"
  else if streak < 7 then
    s!"Awesome! {streak}-day streak — consistency is your superpower 💪"
  else s!"Unstoppable! {streak}-day streak — you’re on fire! ⚡"

/-- The dashboard summary block. -/
structure DashSummary where
  total_xp : Int
  total_sessions : Nat
  current_streak_days : Nat
  motivation : String
  deriving Repr, DecidableEq

/-- One entry of the dashboard's `recent_sessions`. -/
structure RecentSession where
  date : Int
  duration : Int
  xp : Int
  reflection : String
  deriving Repr, DecidableEq

/-- Responses of `GET /home/dashboard`. -/
inductive HomeResp where
  | dashboard (user : String) (summary : DashSummary)
      (recent : List RecentSession)
  | httpError (code : Nat) (detail : String)
  deriving Repr, DecidableEq

/-- Descending-by-date insertion, for `sessions.sort(key=date, reverse=True)`. -/
def insertByDateDesc (x : ProgressRec) : List ProgressRec → List ProgressRec
  | [] => [x]
  | y :: ys => if x.date > y.date then x :: y :: ys else y :: insertByDateDesc x ys

/-- Sort progress rows by date, most recent first. -/
def sortByDateDesc (l : List ProgressRec) : List ProgressRec :=
  l.foldr insertByDateDesc []

/-- Handler `GET /home/dashboard` (`get_dashboard`): 404 for a missing user; an
empty-state payload when the user has no progress rows; else totals,
streak, motivation and the three most recent sessions.
`total_xp = user_obj.total_xp or sum(xp_gained)` — Python `or`, so a stored
0 falls back to the sum. -/
def get_dashboard (st : St) (user : String) : HomeResp × St :=
  match findUser st.db.users user with
  | none => (HomeResp.httpError 404 "User not found. Please register first.", st)
  | some user_obj =>
      let sessions := st.db.progresses.filter (fun s => s.user = user)
      if sessions.isEmpty then
        (HomeResp.dashboard user
          { total_xp := user_obj.total_xp, total_sessions := 0,
            current_streak_days := 0,
            motivation := "Start your first study quest and earn XP today!" } [],
         st)
      else
        let sorted := sortByDateDesc sessions
        let total_xp :=
          pyOrInt (some user_obj.total_xp) ((sorted.map (fun s => s.xp_gained)).sum)
        let streak := calculate_streak sorted
        let recent := (sorted.take 3).map (fun s =>
          ({ date := s.date, duration := s.duration_minutes, xp := s.xp_gained,
             reflection := s.reflection } : RecentSession))
        (HomeResp.dashboard user
          { total_xp := total_xp, total_sessions := sessions.length,
            current_streak_days := streak,
            motivation := get_motivation_message streak } recent, st)

/-- The per-session invariant of claim C10: lives stay in `1..3`, the score
never exceeds the question index, the index stays below the question count,
and the question count is capped at the static bank size. -/
def goodSess (s : Sess) : Prop :=
  1 ≤ s.lives ∧ s.lives ≤ 3 ∧ s.score ≤ s.index ∧
    s.index < s.total_questions ∧ s.total_questions ≤ 5

instance : DecidablePred goodSess := fun s => by
  unfold goodSess; infer_instance

/-- Every session in the map satisfies `P`. -/
def allSess (P : Sess → Prop) (m : List (String × Sess)) : Prop :=
  ∀ p ∈ m, P p.2

/-- The invariant of claim C10 over the whole `_ACTIVE_SESSIONS` map. -/
def goodMap (m : List (String × Sess)) : Prop :=
  allSess goodSess m

instance (P : Sess → Prop) [DecidablePred P] (m : List (String × Sess)) :
    Decidable (allSess P m) := by
  unfold allSess; infer_instance

instance (m : List (String × Sess)) : Decidable (goodMap m) := by
  unfold goodMap; infer_instance

/-- Every session in the map has at least one life. -/
def livesPos (m : List (String × Sess)) : Prop :=
  allSess (fun s => 1 ≤ s.lives) m

instance (m : List (String × Sess)) : Decidable (livesPos m) := by
  unfold livesPos; infer_instance

/- ### Sample data used by witnesses and counterexamples -/

/-- Sample question: second choice correct. -/
def exQ0 : Question := { question := "Q0", choices := ["a", "b"], answer_idx := 1 }

/-- Sample question: first choice correct. -/
def exQ1 : Question := { question := "Q1", choices := ["c", "d"], answer_idx := 0 }

/-- A fresh two-question session started at t = 0 with the default timer. -/
def exSess : Sess :=
  { difficulty := "medium", started_at := 0, time_limit_seconds := 180,
    lives := 3, score := 0, index := 0, total_questions := 2,
    questions := [exQ0, exQ1] }

/-- A database holding the single registered user `"u"`. -/
def exDB : DB :=
  { users := [{ username := "u", total_xp := 7 }], bossBattles := [],
    reflections := [], progresses := [] }

/-- Server state: user `"u"` with the fresh session active. -/
def exSt : St := { db := exDB, sessions := [("u", exSess)] }

/-- Server state: user `"u"` registered, no active session. -/
def exStIdle : St := { db := exDB, sessions := [] }

/-- Server state: user `"u"` with an active session that has zero lives
(not reachable through the handlers; used to probe the dead-code branch of
`get_current_question`). -/
def exStDead : St :=
  { db := exDB, sessions := [("u", { exSess with lives := 0 })] }

/-- A start request from `"u"` asking for zero questions. -/
def exStartZero : StartRequest :=
  { user := "u", difficulty := none, total_questions := 0,
    time_limit_seconds := none }

/-- A well-formed start request from `"u"`. -/
def exStart : StartRequest :=
  { user := "u", difficulty := none, total_questions := 3,
    time_limit_seconds := none }

/-- Server state: user `"u"` with an active session down to its last
life. -/
def exStOne : St :=
  { db := exDB, sessions := [("u", { exSess with lives := 1 })] }

/-- Server state with an empty user table. -/
def exStEmpty : St :=
  { db := { users := [], bossBattles := [], reflections := [],
            progresses := [] },
    sessions := [] }

/-- A raw AI question item that passes the cleaning checks. -/
def exRawQ : RawQ :=
  { isDict := true, question := some "AI Q", choices := some ["x", "y"],
    answer_idx := some 0 }

/-- An AI call that under-delivers: it returns a single valid question. -/
def exAIShort : AIQuestions := .success [exRawQ]

/-- A start request from `"u"` asking for two questions. -/
def exStartTwo : StartRequest :=
  { user := "u", difficulty := none, total_questions := 2,
    time_limit_seconds := none }

/-- The state reached by starting a two-question battle while the AI
returns only one question (`cleaned[:total]` is shorter than `total`, yet
the session records `total_questions = 2`) and then answering that one
question: the stored session has `index = 1 < total_questions = 2` but no
question left in its list. -/
def exStShort : St :=
  (submit_answer (start_boss_battle exStIdle exStartTwo 0 exAIShort).2
    (some "u") (some 0) 1).2

end StudyQuest

namespace StudyQuest

/- ### Association-list and table lemmas -/

theorem lookupS_popS_self (m : List (String × Sess)) (u : String) :
    lookupS (popS m u) u = none := by
  induction m with
  | nil => rfl
  | cons p rest ih =>
      obtain ⟨k, v⟩ := p
      by_cases h : k = u
      · simpa [popS, h] using ih
      · simpa [popS, lookupS, h] using ih

theorem mem_popS {p : String × Sess} {m : List (String × Sess)} {u : String}
    (h : p ∈ popS m u) : p ∈ m := by
  induction m with
  | nil => simp [popS] at h
  | cons q rest ih =>
      obtain ⟨k, v⟩ := q
      by_cases hk : k = u
      · simp only [popS, if_pos hk] at h
        exact List.mem_cons_of_mem _ (ih h)
      · simp only [popS, if_neg hk] at h
        rcases List.mem_cons.mp h with h1 | h2
        · exact h1 ▸ List.mem_cons_self _ _
        · exact List.mem_cons_of_mem _ (ih h2)

theorem popS_popS (m : List (String × Sess)) (u : String) :
    popS (popS m u) u = popS m u := by
  induction m with
  | nil => rfl
  | cons p rest ih =>
      obtain ⟨k, v⟩ := p
      by_cases h : k = u
      · simp [popS, h, ih]
      · simp [popS, h, ih]

theorem popS_putS (m : List (String × Sess)) (u : String) (s : Sess) :
    popS (putS m u s) u = popS m u := by
  simp [putS, popS, popS_popS]

theorem lookupS_putS_self (m : List (String × Sess)) (u : String) (s : Sess) :
    lookupS (putS m u s) u = some s := by
  simp [putS, lookupS]

theorem lookupS_mem {m : List (String × Sess)} {u : String} {s : Sess}
    (h : lookupS m u = some s) : (u, s) ∈ m := by
  induction m with
  | nil => simp [lookupS] at h
  | cons p rest ih =>
      obtain ⟨k, v⟩ := p
      by_cases hk : k = u
      · simp only [lookupS, if_pos hk] at h
        obtain rfl := Option.some.inj h
        exact hk ▸ List.mem_cons_self _ _
      · simp only [lookupS, if_neg hk] at h
        exact List.mem_cons_of_mem _ (ih h)

theorem findUser_creditXp {l : List UserRec} {u : String} {r : UserRec}
    (h : findUser l u = some r) (xp : Int) :
    findUser (creditXp l u xp) u = some { r with total_xp := r.total_xp + xp } := by
  induction l with
  | nil => simp [findUser] at h
  | cons a rest ih =>
      by_cases ha : a.username = u
      · simp only [findUser, if_pos ha] at h
        obtain rfl := Option.some.inj h
        simp [creditXp, findUser, ha]
      · simp only [findUser, if_neg ha] at h
        simp [creditXp, findUser, ha, ih h]

theorem QUESTIONS_length : QUESTIONS.length = 5 := rfl

theorem QUESTIONS_take_min (n : Nat) :
    QUESTIONS.take (min n 5) = QUESTIONS.take n := by
  rcases Nat.le_total n 5 with h | h
  · rw [Nat.min_eq_left h]
  · rw [Nat.min_eq_right h]
    rw [List.take_of_length_le (by simp [QUESTIONS_length, h]),
        List.take_of_length_le (by simp [QUESTIONS_length, h])]

end StudyQuest

namespace StudyQuest

/- ### Structural lemmas about the handlers -/

/-- Helper: `_end_session` either finds no session (state untouched) or pops the
user's session. -/
theorem end_session_sessions (st : St) (u status : String) (now : Int) :
    (end_session st u status now).2.sessions = st.sessions ∨
      (end_session st u status now).2.sessions = popS st.sessions u := by
  unfold end_session
  cases h : lookupS st.sessions u with
  | none => left; rfl
  | some sess => right; rfl

/-- When a session exists, `_end_session` reports it with the given status
and the session's final counters. -/
theorem end_session_resp {st : St} {u : String} {sess : Sess}
    (h : lookupS st.sessions u = some sess) (status : String) (now : Int) :
    (end_session st u status now).1 =
      Resp.ended status sess.score ((sess.score : Int) * 20)
        sess.total_questions sess.lives := by
  unfold end_session
  rw [h]

/-- After `_end_session`, the user's session is gone. -/
theorem end_session_lookup (st : St) (u status : String) (now : Int) {sess : Sess}
    (h : lookupS st.sessions u = some sess) :
    lookupS (end_session st u status now).2.sessions u = none := by
  unfold end_session
  rw [h]
  exact lookupS_popS_self st.sessions u

/-- Predicate preservation for `_end_session`: sessions only disappear. -/
theorem end_session_allSess {P : Sess → Prop} {st : St} (u status : String)
    (now : Int) (h : allSess P st.sessions) :
    allSess P (end_session st u status now).2.sessions := by
  rcases end_session_sessions st u status now with he | he <;> rw [he]
  · exact h
  · exact fun p hp => h p (mem_popS hp)

end StudyQuest

namespace StudyQuest

/-- Predicate preservation for `GET /boss/question`: the map is unchanged
or loses the accessed session. -/
theorem get_current_question_allSess {P : Sess → Prop} {st : St} (u : String)
    (now : Int) (h : allSess P st.sessions) :
    allSess P (get_current_question st u now).2.sessions := by
  unfold get_current_question
  split
  · exact h
  · split
    · exact end_session_allSess _ _ _ h
    · split
      · exact end_session_allSess _ _ _ h
      · split
        · exact end_session_allSess _ _ _ h
        · split
          · exact h
          · exact h

/-- Predicate preservation for `GET /boss/status`. -/
theorem get_status_allSess {P : Sess → Prop} {st : St} (u : String)
    (now : Int) (h : allSess P st.sessions) :
    allSess P (get_status st u now).2.sessions := by
  unfold get_status
  split
  · exact h
  · dsimp only
    split
    · exact end_session_allSess _ _ _ h
    · exact h

/-- Predicate preservation for `POST /boss/forfeit`. -/
theorem forfeit_allSess {P : Sess → Prop} {st : St} (u : String)
    (now : Int) (h : allSess P st.sessions) :
    allSess P (forfeit st u now).2.sessions := by
  unfold forfeit
  split
  · exact h
  · exact end_session_allSess _ _ _ h

end StudyQuest

namespace StudyQuest

/-- Inserting a session that satisfies `P` into a map of sessions
satisfying `P`. -/
theorem allSess_putS {P : Sess → Prop} {m : List (String × Sess)} {u : String}
    {s : Sess} (hs : P s) (h : allSess P m) : allSess P (putS m u s) := by
  unfold putS
  intro p hp
  rcases List.mem_cons.mp hp with rfl | hmem
  · exact hs
  · exact h p (mem_popS hmem)

/-- Helper: `_end_session` on an existing session pops exactly that session. -/
theorem end_session_sessions_of_some {st : St} {u : String} {sess : Sess}
    (h : lookupS st.sessions u = some sess) (status : String) (now : Int) :
    (end_session st u status now).2.sessions = popS st.sessions u := by
  unfold end_session
  rw [h]

/-- Predicate preservation for `POST /boss/start`, for any per-session
predicate that accepts the freshly initialized session (3 lives, zero
score and index, question count between 1 and the bank size). -/
theorem start_boss_battle_allSess {P : Sess → Prop}
    (hnew : ∀ d ts tl tq qs, 1 ≤ tq → tq ≤ 5 →
      P ⟨d, ts, tl, 3, 0, 0, tq, qs⟩)
    {st : St} (p : StartRequest) (now : Int) (ai : AIQuestions)
    (h : allSess P st.sessions) :
    allSess P (start_boss_battle st p now ai).2.sessions := by
  unfold start_boss_battle
  split
  · exact h
  · split
    · exact h
    · split
      · exact h
      · rename_i h404 htq hdup
        dsimp only
        have hbound : 1 ≤ min p.total_questions.toNat QUESTIONS.length ∧
            min p.total_questions.toNat QUESTIONS.length ≤ 5 := by
          rw [QUESTIONS_length]; omega
        split
        · exact allSess_putS (hnew _ _ _ _ _ hbound.1 hbound.2) h
        · exact allSess_putS (hnew _ _ _ _ _ hbound.1 hbound.2) h

end StudyQuest

namespace StudyQuest
theorem submit_answer_allSess {P : Sess → Prop}
    (hstep : ∀ sess choice q, P sess →
      ¬ (answerStep sess choice q).lives ≤ 0 →
      ¬ (answerStep sess choice q).index ≥ (answerStep sess choice q).total_questions →
      P (answerStep sess choice q))
    {st : St} (uA : Option String) (cA : Option Int) (now : Int)
    (h : allSess P st.sessions) :
    allSess P (submit_answer st uA cA now).2.sessions := by
  unfold submit_answer
  split
  · exact h
  · split
    · exact h
    · split
      · exact h
      · split
        · exact h
        · split
          · exact end_session_allSess _ _ _ h
          · split
            · exact end_session_allSess _ _ _ h
            · split
              · exact h
              · dsimp only
                rename_i uScr username hne cScr choice lScr sess hl htime hidx qScr q hq
                split
                · rename_i hdead
                  rw [@end_session_sessions_of_some
                        { db := st.db, sessions := putS st.sessions username (answerStep sess choice q) }
                        username (answerStep sess choice q)
                        (lookupS_putS_self st.sessions username (answerStep sess choice q))
                        "out_of_lives" now,
                      popS_putS]
                  exact fun p hp => h p (mem_popS hp)
                · rename_i hdead
                  split
                  · rw [@end_session_sessions_of_some
                          { db := st.db, sessions := putS st.sessions username (answerStep sess choice q) }
                          username (answerStep sess choice q)
                          (lookupS_putS_self st.sessions username (answerStep sess choice q))
                          "completed" now,
                        popS_putS]
                    exact fun p hp => h p (mem_popS hp)
                  · rename_i hdone
                    have hP : P (answerStep sess choice q) :=
                      hstep sess choice q (h _ (lookupS_mem hl)) hdead hdone
                    split
                    · exact allSess_putS hP h
                    · exact allSess_putS hP h
end StudyQuest

namespace StudyQuest

/-- The answer mutation keeps the session invariant whenever the handler
keeps the session (it survived the out-of-lives and completion checks). -/
theorem answerStep_goodSess {sess : Sess} {choice : Int} {q : Question}
    (h : goodSess sess)
    (h1 : ¬ (answerStep sess choice q).lives ≤ 0)
    (h2 : ¬ (answerStep sess choice q).index ≥
        (answerStep sess choice q).total_questions) :
    goodSess (answerStep sess choice q) := by
  unfold goodSess answerStep at *
  dsimp only at *
  by_cases hc : choice = q.answer_idx <;> simp [hc] at * <;> omega

end StudyQuest

namespace StudyQuest

/-- C10's invariant is preserved by `POST /boss/start`. -/
theorem start_boss_battle_goodMap {st : St} (p : StartRequest) (now : Int)
    (ai : AIQuestions) (h : goodMap st.sessions) :
    goodMap (start_boss_battle st p now ai).2.sessions :=
  start_boss_battle_allSess
    (fun d ts tl tq qs h1 h5 => by unfold goodSess; dsimp only; omega)
    p now ai h

/-- C10's invariant is preserved by `POST /boss/answer`. -/
theorem submit_answer_goodMap {st : St} (uA : Option String) (cA : Option Int)
    (now : Int) (h : goodMap st.sessions) :
    goodMap (submit_answer st uA cA now).2.sessions :=
  submit_answer_allSess
    (fun sess choice q hP h1 h2 => answerStep_goodSess hP h1 h2) uA cA now h

/-- Lives stay positive across `POST /boss/start`. -/
theorem start_boss_battle_livesPos {st : St} (p : StartRequest) (now : Int)
    (ai : AIQuestions) (h : livesPos st.sessions) :
    livesPos (start_boss_battle st p now ai).2.sessions :=
  start_boss_battle_allSess (fun d ts tl tq qs h1 h5 => by norm_num)
    p now ai h

/-- Lives stay positive across `POST /boss/answer`: the handler never keeps
a session whose lives dropped to zero. -/
theorem submit_answer_livesPos {st : St} (uA : Option String) (cA : Option Int)
    (now : Int) (h : livesPos st.sessions) :
    livesPos (submit_answer st uA cA now).2.sessions :=
  submit_answer_allSess (fun sess choice q hP h1 h2 => by omega) uA cA now h

end StudyQuest

namespace StudyQuest

/-- C1: on every terminal transition (any status — in particular
"completed", "out_of_lives", "timeout" and "forfeit"), `_end_session`
persists exactly one `BossBattle` record carrying the session's final
score, total_questions and difficulty, with `xp_reward = score * 20` and
`completed = True`; credits that same XP to the user's `total_xp`; removes
the session from `_ACTIVE_SESSIONS`; and afterwards no request can resume
the session (a further access gets 404). -/
theorem c1_end_session_terminal (st : St) (user status : String)
    (now now' : Int) (sess : Sess) (uRec : UserRec)
    (hs : lookupS st.sessions user = some sess)
    (hu : findUser st.db.users user = some uRec) :
    (end_session st user status now).1 =
      Resp.ended status sess.score ((sess.score : Int) * 20)
        sess.total_questions sess.lives ∧
    (end_session st user status now).2.db.bossBattles =
      st.db.bossBattles ++
        [{ user := user, date := now, score := sess.score,
           total_questions := sess.total_questions,
           xp_reward := (sess.score : Int) * 20,
           difficulty := sess.difficulty, completed := true }] ∧
    findUser (end_session st user status now).2.db.users user =
      some { uRec with total_xp := uRec.total_xp + (sess.score : Int) * 20 } ∧
    lookupS (end_session st user status now).2.sessions user = none ∧
    get_current_question (end_session st user status now).2 user now' =
      (Resp.httpError 404 "No active boss battle. Start one first.",
        (end_session st user status now).2) := by
  have h4 := end_session_lookup st user status now hs
  refine ⟨end_session_resp hs status now, ?_, ?_, h4, ?_⟩
  · unfold end_session
    rw [hs]
  · unfold end_session
    rw [hs]
    dsimp only
    exact findUser_creditXp hu _
  · unfold get_current_question
    rw [h4]

end StudyQuest

namespace StudyQuest

/-- Witness for C1: ending the sample session for registered user `"u"`. -/
theorem c1_witness :
    (lookupS exSt.sessions "u" = some exSess ∧
     findUser exSt.db.users "u" = some { username := "u", total_xp := 7 }) ∧
    ((end_session exSt "u" "forfeit" 100).1 =
      Resp.ended "forfeit" exSess.score ((exSess.score : Int) * 20)
        exSess.total_questions exSess.lives ∧
    (end_session exSt "u" "forfeit" 100).2.db.bossBattles =
      exSt.db.bossBattles ++
        [{ user := "u", date := 100, score := exSess.score,
           total_questions := exSess.total_questions,
           xp_reward := (exSess.score : Int) * 20,
           difficulty := exSess.difficulty, completed := true }] ∧
    findUser (end_session exSt "u" "forfeit" 100).2.db.users "u" =
      some { username := "u", total_xp := (7 : Int) + (exSess.score : Int) * 20 } ∧
    lookupS (end_session exSt "u" "forfeit" 100).2.sessions "u" = none ∧
    get_current_question (end_session exSt "u" "forfeit" 100).2 "u" 101 =
      (Resp.httpError 404 "No active boss battle. Start one first.",
        (end_session exSt "u" "forfeit" 100).2)) :=
  ⟨⟨by decide, by decide⟩,
   c1_end_session_terminal exSt "u" "forfeit" 100 101 exSess
     { username := "u", total_xp := 7 } (by decide) (by decide)⟩

end StudyQuest

namespace StudyQuest

/-- C2 (amended): an answer submitted to an active, non-timed-out session
whose current question exists in its stored question list advances the
question index by exactly 1, and exactly one of: correct choice — score
+1, lives unchanged; wrong choice — lives −1, score unchanged.  Afterwards
the session either remains in the map in exactly that mutated state, or
was terminated (out of lives / completed) and the terminal report carries
the mutated counters.  The existence hypothesis is necessary: an
AI-generated session can hold fewer questions than `total_questions` (it
always holds for sessions built from the static bank), and an answer to a
missing question raises `IndexError` before any mutation — see the
counterexample. -/
theorem c2_submit_answer_step (st : St) (user : String) (choice : Int)
    (now : Int) (sess : Sess) (q : Question)
    (hne : user ≠ "")
    (hs : lookupS st.sessions user = some sess)
    (htime : time_remaining sess now ≠ 0)
    (hidx : sess.index < sess.total_questions)
    (hq : sess.questions[sess.index]? = some q) :
    (answerStep sess choice q).index = sess.index + 1 ∧
    (choice = q.answer_idx →
      (answerStep sess choice q).score = sess.score + 1 ∧
      (answerStep sess choice q).lives = sess.lives) ∧
    (choice ≠ q.answer_idx →
      (answerStep sess choice q).lives = sess.lives - 1 ∧
      (answerStep sess choice q).score = sess.score) ∧
    (lookupS (submit_answer st (some user) (some choice) now).2.sessions user =
        some (answerStep sess choice q) ∨
      (lookupS (submit_answer st (some user) (some choice) now).2.sessions user = none ∧
        (submit_answer st (some user) (some choice) now).1 =
          Resp.ended
            (if (answerStep sess choice q).lives ≤ 0 then "out_of_lives" else "completed")
            (answerStep sess choice q).score
            (((answerStep sess choice q).score : Int) * 20)
            (answerStep sess choice q).total_questions
            (answerStep sess choice q).lives)) := by
  refine ⟨?_, ?_, ?_, ?_⟩
  · unfold answerStep; dsimp only
  · intro hc; unfold answerStep; simp [hc]
  · intro hc; unfold answerStep; simp [hc]
  · unfold submit_answer
    dsimp only
    rw [if_neg hne, hs]
    dsimp only
    rw [if_neg htime, if_neg (Nat.not_le.mpr hidx), hq]
    dsimp only
    split
    · rename_i hdead
      have hput := lookupS_putS_self st.sessions user (answerStep sess choice q)
      right
      constructor
      · rw [@end_session_sessions_of_some
              { db := st.db, sessions := putS st.sessions user (answerStep sess choice q) }
              user (answerStep sess choice q) hput "out_of_lives" now]
        exact lookupS_popS_self _ _
      · rw [@end_session_resp
              { db := st.db, sessions := putS st.sessions user (answerStep sess choice q) }
              user (answerStep sess choice q) hput "out_of_lives" now]
    · rename_i hdead
      split
      · rename_i hdone
        have hput := lookupS_putS_self st.sessions user (answerStep sess choice q)
        right
        constructor
        · rw [@end_session_sessions_of_some
                { db := st.db, sessions := putS st.sessions user (answerStep sess choice q) }
                user (answerStep sess choice q) hput "completed" now]
          exact lookupS_popS_self _ _
        · rw [@end_session_resp
                { db := st.db, sessions := putS st.sessions user (answerStep sess choice q) }
                user (answerStep sess choice q) hput "completed" now]
      · split
        · left; exact lookupS_putS_self _ _ _
        · left; exact lookupS_putS_self _ _ _

end StudyQuest

namespace StudyQuest

/-- Witness for C2: a correct answer on the sample session. -/
theorem c2_witness :
    (("u" : String) ≠ "" ∧
     lookupS exSt.sessions "u" = some exSess ∧
     time_remaining exSess 10 ≠ 0 ∧
     exSess.index < exSess.total_questions ∧
     exSess.questions[exSess.index]? = some exQ0) ∧
    ((answerStep exSess 1 exQ0).index = exSess.index + 1 ∧
    ((1 : Int) = exQ0.answer_idx →
      (answerStep exSess 1 exQ0).score = exSess.score + 1 ∧
      (answerStep exSess 1 exQ0).lives = exSess.lives) ∧
    ((1 : Int) ≠ exQ0.answer_idx →
      (answerStep exSess 1 exQ0).lives = exSess.lives - 1 ∧
      (answerStep exSess 1 exQ0).score = exSess.score) ∧
    (lookupS (submit_answer exSt (some "u") (some 1) 10).2.sessions "u" =
        some (answerStep exSess 1 exQ0) ∨
      (lookupS (submit_answer exSt (some "u") (some 1) 10).2.sessions "u" = none ∧
        (submit_answer exSt (some "u") (some 1) 10).1 =
          Resp.ended
            (if (answerStep exSess 1 exQ0).lives ≤ 0 then "out_of_lives" else "completed")
            (answerStep exSess 1 exQ0).score
            (((answerStep exSess 1 exQ0).score : Int) * 20)
            (answerStep exSess 1 exQ0).total_questions
            (answerStep exSess 1 exQ0).lives))) :=
  ⟨⟨by decide, by decide, by decide, by decide, by decide⟩,
   c2_submit_answer_step exSt "u" 1 10 exSess exQ0 (by decide) (by decide)
     (by decide) (by decide) (by decide)⟩

end StudyQuest

namespace StudyQuest

/-- C3 (amended): once a session's elapsed time has reached its
`time_limit_seconds`, the next access through `GET /boss/question`,
`POST /boss/answer` or `GET /boss/status` terminates it with status
`"timeout"`; `POST /boss/forfeit` also terminates it — removing it from
the map just the same — but reports status `"forfeit"`, since the forfeit
handler never consults the timer. -/
theorem c3_timeout_on_access (st : St) (user : String) (choice : Int)
    (now : Int) (sess : Sess)
    (hne : user ≠ "")
    (hs : lookupS st.sessions user = some sess)
    (hexp : sess.time_limit_seconds ≤ now - sess.started_at) :
    get_current_question st user now = end_session st user "timeout" now ∧
    submit_answer st (some user) (some choice) now =
      end_session st user "timeout" now ∧
    get_status st user now = end_session st user "timeout" now ∧
    forfeit st user now = end_session st user "forfeit" now ∧
    (end_session st user "timeout" now).1.endStatus = some "timeout" ∧
    (end_session st user "forfeit" now).1.endStatus = some "forfeit" ∧
    lookupS (end_session st user "timeout" now).2.sessions user = none ∧
    lookupS (end_session st user "forfeit" now).2.sessions user = none := by
  have hzero : time_remaining sess now = 0 := by
    unfold time_remaining; omega
  refine ⟨?_, ?_, ?_, ?_, ?_, ?_, ?_, ?_⟩
  · unfold get_current_question
    rw [hs]
    dsimp only
    rw [if_pos hzero]
  · unfold submit_answer
    dsimp only
    rw [if_neg hne, hs]
    dsimp only
    rw [if_pos hzero]
  · unfold get_status
    rw [hs]
    dsimp only
    rw [if_pos hzero]
  · unfold forfeit
    rw [hs]
  · rw [end_session_resp hs "timeout" now]
    rfl
  · rw [end_session_resp hs "forfeit" now]
    rfl
  · exact end_session_lookup st user "timeout" now hs
  · exact end_session_lookup st user "forfeit" now hs

/-- Counterexample for C3 as stated: on the sample session, expired for
320 seconds, `POST /boss/forfeit` does terminate the session but with
status `"forfeit"`, not `"timeout"`. -/
theorem c3_counterexample :
    time_remaining exSess 500 = 0 ∧
    (forfeit exSt "u" 500).1.endStatus = some "forfeit" ∧
    ¬ (forfeit exSt "u" 500).1.endStatus = some "timeout" := by
  decide

/-- Witness for C3: the three timer-checking handlers on the expired
sample session. -/
theorem c3_witness :
    (("u" : String) ≠ "" ∧
     lookupS exSt.sessions "u" = some exSess ∧
     exSess.time_limit_seconds ≤ 500 - exSess.started_at) ∧
    (get_current_question exSt "u" 500 = end_session exSt "u" "timeout" 500 ∧
    submit_answer exSt (some "u") (some 1) 500 =
      end_session exSt "u" "timeout" 500 ∧
    get_status exSt "u" 500 = end_session exSt "u" "timeout" 500 ∧
    forfeit exSt "u" 500 = end_session exSt "u" "forfeit" 500 ∧
    (end_session exSt "u" "timeout" 500).1.endStatus = some "timeout" ∧
    (end_session exSt "u" "forfeit" 500).1.endStatus = some "forfeit" ∧
    lookupS (end_session exSt "u" "timeout" 500).2.sessions "u" = none ∧
    lookupS (end_session exSt "u" "forfeit" 500).2.sessions "u" = none) :=
  ⟨⟨by decide, by decide, by decide⟩,
   c3_timeout_on_access exSt "u" 1 500 exSess (by decide) (by decide) (by decide)⟩

end StudyQuest

namespace StudyQuest

/-- C4 (amended): an incorrect answer that decrements lives from 1 to 0
terminates the session with status "out_of_lives" and discards it; a
session with lives ≤ 0 accessed via `GET /boss/question` is likewise
terminated and discarded — with status "out_of_lives" if its timer has not
expired, else "timeout" (the timeout check runs first); and every `/boss`
handler preserves "all stored sessions have at least one life", so no
session with lives ≤ 0 ever remains in the map after a handler returns,
given that none was there before the request. -/
theorem c4_out_of_lives (st : St) (user : String) (choice : Int) (now : Int)
    (sess : Sess) (q : Question) (p : StartRequest) (ai : AIQuestions)
    (uA : Option String) (cA : Option Int) :
    (user ≠ "" → lookupS st.sessions user = some sess →
      time_remaining sess now ≠ 0 → sess.index < sess.total_questions →
      sess.questions[sess.index]? = some q → choice ≠ q.answer_idx →
      sess.lives = 1 →
      (submit_answer st (some user) (some choice) now).1.endStatus =
        some "out_of_lives" ∧
      lookupS (submit_answer st (some user) (some choice) now).2.sessions user =
        none) ∧
    (lookupS st.sessions user = some sess → sess.lives ≤ 0 →
      time_remaining sess now ≠ 0 →
      (get_current_question st user now).1.endStatus = some "out_of_lives" ∧
      lookupS (get_current_question st user now).2.sessions user = none) ∧
    (lookupS st.sessions user = some sess → sess.lives ≤ 0 →
      time_remaining sess now = 0 →
      (get_current_question st user now).1.endStatus = some "timeout" ∧
      lookupS (get_current_question st user now).2.sessions user = none) ∧
    (livesPos st.sessions →
      livesPos (start_boss_battle st p now ai).2.sessions ∧
      livesPos (submit_answer st uA cA now).2.sessions ∧
      livesPos (get_current_question st user now).2.sessions ∧
      livesPos (get_status st user now).2.sessions ∧
      livesPos (forfeit st user now).2.sessions) := by
  refine ⟨?_, ?_, ?_, ?_⟩
  · intro hne hs htime hidx hq hc hlife
    have hdead : (answerStep sess choice q).lives ≤ 0 := by
      unfold answerStep; simp [hc]; omega
    have hput := lookupS_putS_self st.sessions user (answerStep sess choice q)
    unfold submit_answer
    dsimp only
    rw [if_neg hne, hs]
    dsimp only
    rw [if_neg htime, if_neg (Nat.not_le.mpr hidx), hq]
    dsimp only
    rw [if_pos hdead]
    constructor
    · rw [@end_session_resp
            { db := st.db, sessions := putS st.sessions user (answerStep sess choice q) }
            user (answerStep sess choice q) hput "out_of_lives" now]
      rfl
    · exact end_session_lookup _ user "out_of_lives" now hput
  · intro hs hlives htime
    unfold get_current_question
    rw [hs]
    dsimp only
    rw [if_neg htime, if_pos hlives]
    exact ⟨by rw [end_session_resp hs "out_of_lives" now]; rfl,
           end_session_lookup st user "out_of_lives" now hs⟩
  · intro hs hlives hzero
    unfold get_current_question
    rw [hs]
    dsimp only
    rw [if_pos hzero]
    exact ⟨by rw [end_session_resp hs "timeout" now]; rfl,
           end_session_lookup st user "timeout" now hs⟩
  · intro h
    exact ⟨start_boss_battle_livesPos p now ai h,
           submit_answer_livesPos uA cA now h,
           get_current_question_allSess user now h,
           get_status_allSess user now h,
           forfeit_allSess user now h⟩

end StudyQuest

namespace StudyQuest

/-- Counterexample for C4 as stated: a session with zero lives whose timer
has also expired is reported as "timeout", not "out_of_lives", by
`GET /boss/question` (the timeout check has priority). -/
theorem c4_counterexample :
    lookupS exStDead.sessions "u" = some { exSess with lives := 0 } ∧
    ({ exSess with lives := 0 } : Sess).lives ≤ 0 ∧
    (get_current_question exStDead "u" 500).1.endStatus = some "timeout" ∧
    ¬ (get_current_question exStDead "u" 500).1.endStatus = some "out_of_lives" := by
  decide

/-- Witness for C4: the last-life wrong answer, the dead-session accesses,
and lives-positivity across the five handlers on the sample states. -/
theorem c4_witness :
    ((submit_answer exStOne (some "u") (some 0) 10).1.endStatus =
        some "out_of_lives" ∧
     lookupS (submit_answer exStOne (some "u") (some 0) 10).2.sessions "u" =
        none) ∧
    ((get_current_question exStDead "u" 10).1.endStatus = some "out_of_lives" ∧
     lookupS (get_current_question exStDead "u" 10).2.sessions "u" = none) ∧
    ((get_current_question exStDead "u" 500).1.endStatus = some "timeout" ∧
     lookupS (get_current_question exStDead "u" 500).2.sessions "u" = none) ∧
    (livesPos (start_boss_battle exSt exStart 10 .unavailable).2.sessions ∧
     livesPos (submit_answer exSt (some "u") (some 1) 10).2.sessions ∧
     livesPos (get_current_question exSt "u" 10).2.sessions ∧
     livesPos (get_status exSt "u" 10).2.sessions ∧
     livesPos (forfeit exSt "u" 10).2.sessions) :=
  ⟨(c4_out_of_lives exStOne "u" 0 10 { exSess with lives := 1 } exQ0 exStart
      .unavailable (some "u") (some 0)).1 (by decide) (by decide) (by decide)
      (by decide) (by decide) (by decide) (by decide),
   (c4_out_of_lives exStDead "u" 0 10 { exSess with lives := 0 } exQ0 exStart
      .unavailable (some "u") (some 0)).2.1 (by decide) (by decide) (by decide),
   (c4_out_of_lives exStDead "u" 0 500 { exSess with lives := 0 } exQ0 exStart
      .unavailable (some "u") (some 0)).2.2.1 (by decide) (by decide) (by decide),
   (c4_out_of_lives exSt "u" 1 10 exSess exQ0 exStart
      .unavailable (some "u") (some 1)).2.2.2 (by decide)⟩

end StudyQuest


namespace StudyQuest

/-- The head of a nonempty prefix of a question list is the head of the
list itself. -/
theorem getElem0_take {l : List Question} {n : Nat} (h : 0 < n) :
    (l.take n)[0]? = l[0]? := by
  cases l with
  | nil => simp
  | cons a t =>
      cases n with
      | zero => omega
      | succ m => simp [List.take]

/-- Helper: `generate_ai_feedback` always lands its XP in `[5, 25]`: the clamp
`max(5, min(25, ...))` on the AI path, the fixed 10 of the fallback. -/
theorem generate_ai_feedback_xp_range (o : AIFeedbackOutcome) (t : String) :
    5 ≤ (generate_ai_feedback o t).xp_reward ∧
      (generate_ai_feedback o t).xp_reward ≤ 25 := by
  cases o with
  | unavailable => exact ⟨by norm_num [generate_ai_feedback, mock_ai_feedback],
                          by norm_num [generate_ai_feedback, mock_ai_feedback]⟩
  | failure => exact ⟨by norm_num [generate_ai_feedback, mock_ai_feedback],
                      by norm_num [generate_ai_feedback, mock_ai_feedback]⟩
  | success fb sm xp =>
      unfold generate_ai_feedback
      dsimp only
      omega

/-- C5: every reflection stored by `POST /text-ai/` carries an
`xp_reward` in `[5, 25]` — the AI path clamps the parsed value (defaulting
to 10 when it is missing or not an integer), the heuristic fallback always
assigns 10. -/
theorem c5_xp_in_range (outcome : AIFeedbackOutcome) (text : String)
    (st : St) (uA tA : Option String) (d : Option Int) (now : Int) (x : Int) :
    (5 ≤ (generate_ai_feedback outcome text).xp_reward ∧
     (generate_ai_feedback outcome text).xp_reward ≤ 25) ∧
    (mock_ai_feedback text).xp_reward = 10 ∧
    ((add_reflection st uA tA d now outcome).1.createdXp = some x →
      5 ≤ x ∧ x ≤ 25) := by
  refine ⟨generate_ai_feedback_xp_range outcome text, rfl, ?_⟩
  intro hx
  unfold add_reflection at hx
  split at hx
  · simp [TAResp.createdXp] at hx
  · split at hx
    · simp [TAResp.createdXp] at hx
    · split at hx
      · simp [TAResp.createdXp] at hx
      · split at hx
        · simp [TAResp.createdXp] at hx
        · split at hx
          · simp [TAResp.createdXp] at hx
          · rename_i username hne2 tScr txt htxt hfound
            simp only [TAResp.createdXp] at hx
            obtain rfl := Option.some.inj hx
            exact generate_ai_feedback_xp_range outcome txt

/-- C6: when the chat-completion client is unconfigured or its call
raises, the endpoints still succeed: `POST /text-ai/` stores exactly the
`_mock_ai_feedback` triple for the reflection text, and `POST /boss/start`
builds the session from the static question bank truncated to the
requested count, with no error response. -/
theorem c6_fallback (st : St) (u text : String) (d : Option Int) (now : Int)
    (o : AIFeedbackOutcome) (ai : AIQuestions) (p : StartRequest) (uR : UserRec)
    (ho : o = .unavailable ∨ o = .failure)
    (hai : ai = .unavailable ∨ ai = .failure) :
    (u ≠ "" → text ≠ "" → findUser st.db.users u = some uR →
      add_reflection st (some u) (some text) d now o =
        (TAResp.created
          { user := u, date := d.getD now, reflection_text := text,
            ai_feedback := (mock_ai_feedback text).feedback,
            summary := (mock_ai_feedback text).summary,
            xp_reward := (mock_ai_feedback text).xp_reward },
         { st with db := { st.db with reflections := st.db.reflections ++
            [{ user := u, date := d.getD now, reflection_text := text,
               ai_feedback := (mock_ai_feedback text).feedback,
               summary := (mock_ai_feedback text).summary,
               xp_reward := (mock_ai_feedback text).xp_reward }] } })) ∧
    (findUser st.db.users p.user = some uR → 1 ≤ p.total_questions →
      lookupS st.sessions p.user = none →
      lookupS (start_boss_battle st p now ai).2.sessions p.user =
        some { difficulty := pyOrStr p.difficulty "medium", started_at := now,
               time_limit_seconds := pyOrInt p.time_limit_seconds 180,
               lives := 3, score := 0, index := 0,
               total_questions := min p.total_questions.toNat 5,
               questions := QUESTIONS.take p.total_questions.toNat } ∧
      (start_boss_battle st p now ai).1.errCode = none ∧
      (start_boss_battle st p now ai).1 ≠ Resp.indexError) := by
  have hmockq : ∀ total, generate_ai_questions ai total = QUESTIONS.take total := by
    intro total
    rcases hai with rfl | rfl <;> rfl
  have hmockf : generate_ai_feedback o text = mock_ai_feedback text := by
    rcases ho with rfl | rfl <;> rfl
  constructor
  · intro hne ht hfind
    simp only [add_reflection, if_neg hne, if_neg ht, hfind, Option.isNone_some,
      Bool.false_eq_true, if_false, hmockf]
  · intro hfind h1 hnone
    have hred : start_boss_battle st p now ai =
        (let total : Nat := min p.total_questions.toNat QUESTIONS.length
         let questions := generate_ai_questions ai total
         let sess : Sess :=
          { difficulty := pyOrStr p.difficulty "medium",
            started_at := now,
            time_limit_seconds := pyOrInt p.time_limit_seconds 180,
            lives := 3, score := 0, index := 0,
            total_questions := total, questions := questions }
         let st' : St := { st with sessions := putS st.sessions p.user sess }
         match questions[0]? with
         | none => (Resp.indexError, st')
         | some q =>
             (Resp.started p.user (pyOrInt p.time_limit_seconds 180) 3 1 total
               q.question q.choices, st')) := by
      unfold start_boss_battle
      rw [hfind, hnone]
      rw [if_neg (by omega : ¬ p.total_questions < 1)]
      rfl
    rw [hred]
    dsimp only
    rw [QUESTIONS_length, hmockq, QUESTIONS_take_min]
    have h0 : (QUESTIONS.take p.total_questions.toNat)[0]? =
        some (QUESTIONS.get ⟨0, by decide⟩) := by
      rw [getElem0_take (by omega)]
      rfl
    rw [h0]
    dsimp only
    refine ⟨?_, rfl, by simp⟩
    exact lookupS_putS_self _ _ _
end StudyQuest

namespace StudyQuest

/-- Witness for C5: the clamp on an oversized AI value and a stored
fallback reflection. -/
theorem c5_witness :
    (5 ≤ (generate_ai_feedback (.success none none (some 100)) "hello").xp_reward ∧
     (generate_ai_feedback (.success none none (some 100)) "hello").xp_reward ≤ 25) ∧
    (mock_ai_feedback "hello").xp_reward = 10 ∧
    ((add_reflection exStIdle (some "u") (some "hi") none 5 .unavailable).1.createdXp =
        some 10 ∧
     (5 ≤ (10 : Int) ∧ (10 : Int) ≤ 25)) :=
  ⟨(c5_xp_in_range (.success none none (some 100)) "hello" exStIdle (some "u")
      (some "hi") none 5 10).1,
   (c5_xp_in_range (.success none none (some 100)) "hello" exStIdle (some "u")
      (some "hi") none 5 10).2.1,
   by decide,
   (c5_xp_in_range .unavailable "hi" exStIdle (some "u")
      (some "hi") none 5 10).2.2 (by decide)⟩

/-- Witness for C6: a reflection and a battle start with the AI call
failing, on the sample database. -/
theorem c6_witness :
    (add_reflection exStIdle (some "u") (some "so tired") none 5 .failure =
      (TAResp.created
        { user := "u", date := 5, reflection_text := "so tired",
          ai_feedback := (mock_ai_feedback "so tired").feedback,
          summary := (mock_ai_feedback "so tired").summary,
          xp_reward := (mock_ai_feedback "so tired").xp_reward },
       { exStIdle with db := { exStIdle.db with reflections :=
          exStIdle.db.reflections ++
            [{ user := "u", date := 5, reflection_text := "so tired",
               ai_feedback := (mock_ai_feedback "so tired").feedback,
               summary := (mock_ai_feedback "so tired").summary,
               xp_reward := (mock_ai_feedback "so tired").xp_reward }] } })) ∧
    (lookupS (start_boss_battle exStIdle exStart 5 .failure).2.sessions "u" =
      some { difficulty := pyOrStr none "medium", started_at := 5,
             time_limit_seconds := pyOrInt none 180,
             lives := 3, score := 0, index := 0,
             total_questions := min ((3 : Int)).toNat 5,
             questions := QUESTIONS.take ((3 : Int)).toNat } ∧
     (start_boss_battle exStIdle exStart 5 .failure).1.errCode = none ∧
     (start_boss_battle exStIdle exStart 5 .failure).1 ≠ Resp.indexError) :=
  ⟨(c6_fallback exStIdle "u" "so tired" none 5 .failure .failure exStart
      { username := "u", total_xp := 7 } (Or.inr rfl) (Or.inr rfl)).1
      (by decide) (by decide) (by decide),
   (c6_fallback exStIdle "u" "so tired" none 5 .failure .failure exStart
      { username := "u", total_xp := 7 } (Or.inr rfl) (Or.inr rfl)).2
      (by decide) (by decide) (by decide)⟩

end StudyQuest


namespace StudyQuest

/-- C7 (amended): for a registered user who already has an active session,
`POST /boss/start` fails and leaves the whole state — in particular the
existing session — untouched: with 409 when the requested
`total_questions` is at least 1, but with 400 when it is below 1 (that
validation runs before the conflict check). -/
theorem c7_start_conflict (st : St) (p : StartRequest) (now : Int)
    (ai : AIQuestions) (uR : UserRec) (sess : Sess)
    (hu : findUser st.db.users p.user = some uR)
    (hs : lookupS st.sessions p.user = some sess) :
    (1 ≤ p.total_questions →
      start_boss_battle st p now ai =
        (Resp.httpError 409 "An active boss battle already exists.", st)) ∧
    (p.total_questions < 1 →
      start_boss_battle st p now ai =
        (Resp.httpError 400 "total_questions must be >= 1", st)) := by
  constructor
  · intro h1
    unfold start_boss_battle
    rw [hu, hs]
    rw [if_neg (by omega : ¬ p.total_questions < 1)]
    rfl
  · intro h1
    unfold start_boss_battle
    rw [hu]
    rw [if_pos h1]
    rfl

/-- C8: for a username with no `User` row, `POST /boss/start`,
`GET /home/dashboard`, `POST /text-ai/` (on a well-formed submission) and
`GET /text-ai/` all fail with 404 and leave the state unchanged. -/
theorem c8_missing_user_404 (st : St) (u text : String) (now : Int)
    (diff : Option String) (tq : Int) (tl : Option Int) (ai : AIQuestions)
    (d : Option Int) (o : AIFeedbackOutcome)
    (hu : findUser st.db.users u = none)
    (hne : u ≠ "") (ht : text ≠ "") :
    start_boss_battle st (⟨u, diff, tq, tl⟩ : StartRequest) now ai =
      (Resp.httpError 404 "User not found. Please register first.", st) ∧
    get_dashboard st u =
      (HomeResp.httpError 404 "User not found. Please register first.", st) ∧
    add_reflection st (some u) (some text) d now o =
      (TAResp.httpError 404 "User not found. Please register first.", st) ∧
    list_reflections st u =
      (TAResp.httpError 404 "User not found. Please register first.", st) := by
  refine ⟨?_, ?_, ?_, ?_⟩
  · unfold start_boss_battle
    dsimp only
    rw [hu]
    rfl
  · unfold get_dashboard
    rw [hu]
  · simp only [add_reflection, if_neg hne, if_neg ht, hu]
    rfl
  · unfold list_reflections
    rw [hu]
    rfl

/-- C9: requests missing a required field fail with 400 and change no
state: `POST /boss/answer` without a user (absent or empty) or without a
resolvable choice index, `POST /text-ai/` without a user or without
reflection text, and `POST /boss/start` (by a registered user) with
`total_questions` below 1. -/
theorem c9_missing_field_400 (st : St) (u : String)
    (tA uA : Option String) (d : Option Int) (now : Int) (cA : Option Int)
    (o : AIFeedbackOutcome) (p : StartRequest) (ai : AIQuestions)
    (uR : UserRec) :
    submit_answer st none cA now =
      (Resp.httpError 400 "user is required.", st) ∧
    submit_answer st (some "") cA now =
      (Resp.httpError 400 "user is required.", st) ∧
    ((submit_answer st (some u) none now).1.errCode = some 400 ∧
      (submit_answer st (some u) none now).2 = st) ∧
    add_reflection st none tA d now o =
      (TAResp.httpError 400 "user is required.", st) ∧
    ((add_reflection st uA none d now o).1.errCode = some 400 ∧
      (add_reflection st uA none d now o).2 = st) ∧
    ((add_reflection st uA (some "") d now o).1.errCode = some 400 ∧
      (add_reflection st uA (some "") d now o).2 = st) ∧
    (findUser st.db.users p.user = some uR → p.total_questions < 1 →
      start_boss_battle st p now ai =
        (Resp.httpError 400 "total_questions must be >= 1", st)) := by
  refine ⟨rfl, ?_, ?_, rfl, ?_, ?_, ?_⟩
  · simp [submit_answer]
  · by_cases hu : u = ""
    · subst hu
      simp [submit_answer, Resp.errCode]
    · simp [submit_answer, hu, Resp.errCode]
  · cases uA with
    | none => exact ⟨rfl, rfl⟩
    | some u' =>
        by_cases hu : u' = ""
        · subst hu
          simp [add_reflection, TAResp.errCode]
        · simp [add_reflection, hu, TAResp.errCode]
  · cases uA with
    | none => exact ⟨rfl, rfl⟩
    | some u' =>
        by_cases hu : u' = ""
        · subst hu
          simp [add_reflection, TAResp.errCode]
        · simp [add_reflection, hu, TAResp.errCode]
  · intro hfind h1
    unfold start_boss_battle
    rw [hfind, if_pos h1]
    rfl

/-- C10: if every stored session satisfies the invariant
`1 ≤ lives ≤ 3 ∧ score ≤ index < total_questions ∧ total_questions ≤ 5`
(score is a natural number, so `0 ≤ score` is implicit), then after any of
the five `/boss` handlers returns, every session still present satisfies
it; `POST /boss/start` caps the requested count at the static bank size
even when AI generation is used. -/
theorem c10_session_invariant (st : St) (p : StartRequest) (now : Int)
    (ai : AIQuestions) (uA : Option String) (cA : Option Int) (u : String)
    (h : goodMap st.sessions) :
    goodMap (start_boss_battle st p now ai).2.sessions ∧
    goodMap (submit_answer st uA cA now).2.sessions ∧
    goodMap (get_current_question st u now).2.sessions ∧
    goodMap (get_status st u now).2.sessions ∧
    goodMap (forfeit st u now).2.sessions :=
  ⟨start_boss_battle_goodMap p now ai h, submit_answer_goodMap uA cA now h,
   get_current_question_allSess u now h, get_status_allSess u now h,
   forfeit_allSess u now h⟩

end StudyQuest

namespace StudyQuest

/-- Counterexample for C7 as stated: user `"u"` has an active session, yet
a start request with `total_questions = 0` is rejected with 400, not
409. -/
theorem c7_counterexample :
    lookupS exSt.sessions "u" = some exSess ∧
    start_boss_battle exSt exStartZero 0 .unavailable =
      (Resp.httpError 400 "total_questions must be >= 1", exSt) ∧
    (Resp.httpError 400 "total_questions must be >= 1").errCode ≠ some 409 := by
  decide

/-- Witness for C7: both rejection branches on the sample state. -/
theorem c7_witness :
    (findUser exSt.db.users "u" = some { username := "u", total_xp := 7 } ∧
     lookupS exSt.sessions "u" = some exSess) ∧
    (start_boss_battle exSt exStart 0 .unavailable =
      (Resp.httpError 409 "An active boss battle already exists.", exSt)) ∧
    (start_boss_battle exSt exStartZero 0 .unavailable =
      (Resp.httpError 400 "total_questions must be >= 1", exSt)) :=
  ⟨⟨by decide, by decide⟩,
   (c7_start_conflict exSt exStart 0 .unavailable
      { username := "u", total_xp := 7 } exSess (by decide) (by decide)).1
      (by decide),
   (c7_start_conflict exSt exStartZero 0 .unavailable
      { username := "u", total_xp := 7 } exSess (by decide) (by decide)).2
      (by decide)⟩

/-- Witness for C8: the unknown user `"ghost"` against an empty user
table. -/
theorem c8_witness :
    (findUser exStEmpty.db.users "ghost" = none) ∧
    (start_boss_battle exStEmpty
        (⟨"ghost", none, 5, none⟩ : StartRequest) 0 .unavailable =
      (Resp.httpError 404 "User not found. Please register first.", exStEmpty) ∧
    get_dashboard exStEmpty "ghost" =
      (HomeResp.httpError 404 "User not found. Please register first.", exStEmpty) ∧
    add_reflection exStEmpty (some "ghost") (some "hi") none 0 .unavailable =
      (TAResp.httpError 404 "User not found. Please register first.", exStEmpty) ∧
    list_reflections exStEmpty "ghost" =
      (TAResp.httpError 404 "User not found. Please register first.", exStEmpty)) :=
  ⟨by decide,
   c8_missing_user_404 exStEmpty "ghost" "hi" 0 none 5 none .unavailable
     none .unavailable (by decide) (by decide) (by decide)⟩

/-- Witness for C9: the missing-field rejections on the sample state. -/
theorem c9_witness :
    (submit_answer exSt none (some 1) 5 =
      (Resp.httpError 400 "user is required.", exSt) ∧
    submit_answer exSt (some "") (some 1) 5 =
      (Resp.httpError 400 "user is required.", exSt) ∧
    ((submit_answer exSt (some "u") none 5).1.errCode = some 400 ∧
      (submit_answer exSt (some "u") none 5).2 = exSt) ∧
    add_reflection exSt none (some "hi") none 5 .unavailable =
      (TAResp.httpError 400 "user is required.", exSt) ∧
    ((add_reflection exSt (some "u") none none 5 .unavailable).1.errCode =
        some 400 ∧
      (add_reflection exSt (some "u") none none 5 .unavailable).2 = exSt) ∧
    ((add_reflection exSt (some "u") (some "") none 5 .unavailable).1.errCode =
        some 400 ∧
      (add_reflection exSt (some "u") (some "") none 5 .unavailable).2 = exSt) ∧
    (findUser exSt.db.users exStartZero.user =
        some { username := "u", total_xp := 7 } →
      exStartZero.total_questions < 1 →
      start_boss_battle exSt exStartZero 5 .unavailable =
        (Resp.httpError 400 "total_questions must be >= 1", exSt))) ∧
    start_boss_battle exSt exStartZero 5 .unavailable =
      (Resp.httpError 400 "total_questions must be >= 1", exSt) :=
  ⟨c9_missing_field_400 exSt "u" (some "hi") (some "u") none 5 (some 1)
     .unavailable exStartZero .unavailable { username := "u", total_xp := 7 },
   (c9_missing_field_400 exSt "u" (some "hi") (some "u") none 5 (some 1)
     .unavailable exStartZero .unavailable
     { username := "u", total_xp := 7 }).2.2.2.2.2.2 (by decide) (by decide)⟩

/-- Witness for C10: the invariant holds on the sample state and is kept
by each handler. -/
theorem c10_witness :
    goodMap exSt.sessions ∧
    (goodMap (start_boss_battle exSt exStart 5 .unavailable).2.sessions ∧
    goodMap (submit_answer exSt (some "u") (some 1) 5).2.sessions ∧
    goodMap (get_current_question exSt "u" 5).2.sessions ∧
    goodMap (get_status exSt "u" 5).2.sessions ∧
    goodMap (forfeit exSt "u" 5).2.sessions) :=
  ⟨by decide,
   c10_session_invariant exSt exStart 5 .unavailable (some "u") (some 1) "u"
     (by decide)⟩

end StudyQuest

namespace StudyQuest

/-- Counterexample for C2 as stated: in `exStShort` — reachable through
`POST /boss/start` with an under-delivering AI and one answered question —
user `"u"` has an active session with 178 seconds remaining, `index = 1`
below `total_questions = 2`, score 1, full lives; yet submitting an answer
raises `IndexError` (`sess["questions"][idx]`, bossbattle.py:313) and the
state is unchanged: the index does not advance and neither score nor
lives change. -/
theorem c2_counterexample :
    (lookupS exStShort.sessions "u").map
        (fun s => (s.index, s.total_questions, s.score, s.lives)) =
      some (1, 2, 1, 3) ∧
    (lookupS exStShort.sessions "u").map (fun s => time_remaining s 2) =
      some 178 ∧
    submit_answer exStShort (some "u") (some 0) 2 =
      (Resp.indexError, exStShort) := by
  decide

end StudyQuest
